import Mathlib

/-
Verification of the RN_FastAPI client authentication core.

The definitions below are a shallow embedding of the TypeScript source:
  - src/rn_fastapi/screens/login.tsx  (auth store, endpoint resolver, login
    orchestration)
  - src/rn_fastapi/screens/overview.tsx (logout call site)
JavaScript runtime behaviour is modelled explicitly: `undefined`/`null`
string values become `Option String` with `none`, the truthiness of the
`||` operator on strings is `jsOrDefault` (empty string is falsy), a
thrown value is `JsError` (an `Error` instance carrying a message, or a
non-`Error` value), and `Response.ok` is `statusOk` (status in [200,300)).
-/

namespace RNFastAPI

/-! ## Session Manager: the zustand auth store (login.tsx lines 21-33) -/

/-- State of `useAuthStore`: `token: string | null` and `isAuthenticated:
boolean`. `none` models both `null` and `undefined`. -/
structure AuthState where
  token : Option String
  isAuthenticated : Bool
deriving DecidableEq

/-- Initial store state `{ token: null, isAuthenticated: false }`. -/
def initialAuthState : AuthState := ⟨none, false⟩

/-- `login: (token) => set({ token, isAuthenticated: true })`.  Declared to
take a `string`, but at runtime (login.tsx line 142) it is invoked with
`data.access_token`, which may be `undefined`; the argument is therefore an
`Option String`. The previous state is fully overwritten. -/
def storeLogin (token : Option String) (_s : AuthState) : AuthState :=
  ⟨token, true⟩

/-- `logout: () => set({ token: null, isAuthenticated: false })`. -/
def storeLogout (_s : AuthState) : AuthState :=
  ⟨none, false⟩

/-- The two store mutators, as operations for state-machine reasoning.
`loginOp t` is a call `login(t)` with an actual string argument `t`. -/
inductive AuthOp
  | loginOp (t : String)
  | logoutOp
deriving DecidableEq

/-- Apply one mutator to the store state. -/
def applyOp (s : AuthState) : AuthOp → AuthState
  | .loginOp t => storeLogin (some t) s
  | .logoutOp => storeLogout s

/-- Run a sequence of mutators from the initial store state. -/
def runOps (ops : List AuthOp) : AuthState :=
  ops.foldl applyOp initialAuthState

/-- The invariant as the spec words it: `authenticated` is true iff the
token is a present, non-empty string. -/
def claimedAuthInvariant (s : AuthState) : Bool :=
  s.isAuthenticated = match s.token with
    | some t => t != ""
    | none => false

/-- The invariant the store actually maintains under `loginOp`/`logoutOp`:
`authenticated` is true iff a token value is present (possibly empty). -/
def amendedAuthInvariant (s : AuthState) : Bool :=
  s.isAuthenticated = s.token.isSome

theorem applyOp_amended (s : AuthState) (op : AuthOp)
    (_h : amendedAuthInvariant s = true) :
    amendedAuthInvariant (applyOp s op) = true := by
  cases op <;> simp [applyOp, storeLogin, storeLogout, amendedAuthInvariant]

theorem foldl_amended (ops : List AuthOp) (s : AuthState)
    (h : amendedAuthInvariant s = true) :
    amendedAuthInvariant (ops.foldl applyOp s) = true := by
  induction ops generalizing s with
  | nil => exact h
  | cons op rest ih => exact ih (applyOp s op) (applyOp_amended s op h)

/-- C1 counterexample: after the single operation `login("")` the store is
`{token: some "", authenticated: true}`, so `authenticated` is true while
the token string is empty — the claimed invariant fails. -/
theorem claimedAuthInvariant_cex :
    claimedAuthInvariant (runOps [AuthOp.loginOp ""]) = false := by
  decide

/-- C1 (amended): for every sequence of `login(t)`/`logout()` operations
from the initial state, `authenticated` is true iff a token value is
present (`some`); presence, not non-emptiness of the string, is what the
store maintains, since `login("")` yields `{some "", true}`. -/
theorem authInvariant_holds (ops : List AuthOp) :
    amendedAuthInvariant (runOps ops) = true :=
  foldl_amended ops initialAuthState (by decide)

/-- C5: for every prior state and every non-empty token `t`, `login(t)`
yields exactly `{token: t, authenticated: true}`; the prior state is fully
overwritten. -/
theorem login_overwrites (s : AuthState) (t : String) (_h : t ≠ "") :
    storeLogin (some t) s = ⟨some t, true⟩ :=
  rfl

/-- C5 witness: `login("abc123")` after a prior logged-in state. -/
theorem login_overwrites_witness :
    ("abc123" : String) ≠ "" ∧
      storeLogin (some "abc123") ⟨some "old", true⟩ =
        ⟨some "abc123", true⟩ :=
  ⟨by decide, login_overwrites ⟨some "old", true⟩ "abc123" (by decide)⟩

/-- C6: `logout()` yields exactly `{token: none, authenticated: false}` from
every prior state (including the initial, already-logged-out one), and it is
idempotent. -/
theorem logout_resets (s : AuthState) :
    storeLogout s = initialAuthState ∧
      storeLogout (storeLogout s) = storeLogout s :=
  ⟨rfl, rfl⟩

end RNFastAPI

namespace RNFastAPI

/-! ## JavaScript runtime modelling -/

/-- A thrown JavaScript value: either an `Error` instance (with its
`.message`) or some non-`Error` value. -/
inductive JsError
  | errorInst (msg : String)
  | nonError
deriving DecidableEq

/-- JavaScript string `a || b`: `b` when `a` is absent (`undefined`/`null`)
or the empty string (both falsy), otherwise `a`. -/
def jsOrDefault (a : Option String) (b : String) : String :=
  match a with
  | some s => if s = "" then b else s
  | none => b

/-- `Response.ok`: status code in the range [200, 300). -/
def statusOk (status : Nat) : Bool :=
  200 ≤ status && status < 300

/-! ## Candidate endpoint list: getServerUrls (login.tsx lines 47-63) -/

/-- The `urls` array as pushed before deduplication: the emulator URL only
when `Platform.OS === 'android'`, then the local URL, then the device URL,
each read from its environment variable with `||`-fallback to the hardcoded
default. -/
def rawServerUrls (osIsAndroid : Bool)
    (apiUrlEmulator apiUrlLocal apiUrlDevice : Option String) :
    List String :=
  (if osIsAndroid then [jsOrDefault apiUrlEmulator "http://10.0.2.2:8000"]
   else []) ++
    [jsOrDefault apiUrlLocal "http://localhost:8000",
     jsOrDefault apiUrlDevice "http://127.0.0.1:8000"]

/-- Walk the list keeping each element not already seen; `seen` is the set
of elements inserted so far. -/
def jsSetDedupAux (seen : List String) : List String → List String
  | [] => []
  | x :: xs =>
    if x ∈ seen then jsSetDedupAux seen xs
    else x :: jsSetDedupAux (x :: seen) xs

/-- `[...new Set(urls)]`: deduplication keeping the first occurrence of each
element, in encounter order (JavaScript `Set` iteration order is insertion
order). -/
def jsSetDedup (l : List String) : List String :=
  jsSetDedupAux [] l

/-- `getServerUrls`: build the raw list, then deduplicate. -/
def getServerUrls (osIsAndroid : Bool)
    (apiUrlEmulator apiUrlLocal apiUrlDevice : Option String) :
    List String :=
  jsSetDedup (rawServerUrls osIsAndroid apiUrlEmulator apiUrlLocal apiUrlDevice)

/-! ## Endpoint resolver: findWorkingServer (login.tsx lines 66-97) -/

/-- Outcome of the liveness probe `GET {url}/ping` against one candidate:
either `fetch` rejects (connection refused, timeout, ...), or a response
with some status arrives and `response.json()` either succeeds
(`jsonError = none`) or throws (`jsonError = some e`). -/
inductive PingOutcome
  | fetchThrow (e : JsError)
  | gotResponse (status : Nat) (jsonError : Option JsError)
deriving DecidableEq

/-- Body of the `try` block for one candidate: `.ok (some url)` when the
probe succeeds and the loop returns, `.ok none` when `response.ok` is false
and the loop falls through, `.error e` when `fetch` or `response.json()`
throws. -/
def probeCandidate (probe : String → PingOutcome) (url : String) :
    Except JsError (Option String) :=
  match probe url with
  | .fetchThrow e => .error e
  | .gotResponse status jsonError =>
    if statusOk status then
      match jsonError with
      | none => .ok (some url)
      | some e => .error e
    else .ok none

/-- A candidate is reachable when its probe yields a success status and a
JSON-decodable body. -/
def reachable (probe : String → PingOutcome) (url : String) : Bool :=
  match probe url with
  | .gotResponse status none => statusOk status
  | _ => false

/-- The `for` loop of `findWorkingServer`: returns the resolved URL (or
`none` after exhaustion) together with the list of candidates actually
probed, in order. The `catch` branch and the non-ok branch both continue
with the next candidate. -/
def findWorkingServer (probe : String → PingOutcome) :
    List String → Option String × List String
  | [] => (none, [])
  | url :: rest =>
    match probeCandidate probe url with
    | .ok (some u) => (some u, [url])
    | _ =>
      let r := findWorkingServer probe rest
      (r.1, url :: r.2)

theorem probeCandidate_of_reachable (probe : String → PingOutcome)
    (url : String) (h : reachable probe url = true) :
    probeCandidate probe url = .ok (some url) := by
  unfold reachable at h
  unfold probeCandidate
  cases hp : probe url with
  | fetchThrow e => rw [hp] at h; simp at h
  | gotResponse status jsonError =>
    rw [hp] at h
    cases jsonError with
    | none => simp at h; simp [h]
    | some e => simp at h

theorem probeCandidate_of_unreachable (probe : String → PingOutcome)
    (url : String) (h : reachable probe url = false) :
    ∀ u, probeCandidate probe url ≠ .ok (some u) := by
  intro u
  unfold reachable at h
  unfold probeCandidate
  cases hp : probe url with
  | fetchThrow e => simp
  | gotResponse status jsonError =>
    rw [hp] at h
    cases jsonError with
    | none => simp at h; simp [h]
    | some e => cases hs : statusOk status <;> simp [hs]

/-- C2: whenever some candidate is reachable, the resolver returns the
first reachable candidate in list order (all candidates before it are
unreachable), and the probed trace is exactly the unreachable head segment
followed by the winner — the candidates after the winner are never
probed. -/
theorem findWorkingServer_first_reachable (probe : String → PingOutcome)
    (l : List String) (h : ∃ u ∈ l, reachable probe u = true) :
    ∃ pre w post, l = pre ++ w :: post ∧
      (∀ u ∈ pre, reachable probe u = false) ∧
      reachable probe w = true ∧
      findWorkingServer probe l = (some w, pre ++ [w]) := by
  induction l with
  | nil => obtain ⟨u, hu, _⟩ := h; exact absurd hu (List.not_mem_nil u)
  | cons url rest ih =>
    cases hr : reachable probe url with
    | true =>
      refine ⟨[], url, rest, rfl, by simp, hr, ?_⟩
      unfold findWorkingServer
      rw [probeCandidate_of_reachable probe url hr]
      simp
    | false =>
      have hrest : ∃ u ∈ rest, reachable probe u = true := by
        obtain ⟨u, hu, hru⟩ := h
        rcases List.mem_cons.mp hu with rfl | hu
        · rw [hr] at hru; exact absurd hru (by simp)
        · exact ⟨u, hu, hru⟩
      obtain ⟨pre, w, post, hdec, hpre, hw, hres⟩ := ih hrest
      refine ⟨url :: pre, w, post, by rw [hdec]; rfl, ?_, hw, ?_⟩
      · intro u hu
        rcases List.mem_cons.mp hu with rfl | hu
        · exact hr
        · exact hpre u hu
      · unfold findWorkingServer
        cases hpc : probeCandidate probe url with
        | ok o =>
          cases o with
          | some u => exact absurd hpc (probeCandidate_of_unreachable probe url hr u)
          | none => simp [hres]
        | error e => simp [hres]

/-- C7: when no candidate is reachable (connection error, timeout,
non-success status, or JSON-decode failure on each), the resolver returns
an absent result — not an error, the per-candidate errors having been
swallowed by the loop's `catch` — after probing every candidate. -/
theorem findWorkingServer_exhausts (probe : String → PingOutcome)
    (l : List String) (h : ∀ u ∈ l, reachable probe u = false) :
    findWorkingServer probe l = (none, l) := by
  induction l with
  | nil => rfl
  | cons url rest ih =>
    have hr : reachable probe url = false := h url (List.mem_cons_self url rest)
    have hrest : findWorkingServer probe rest = (none, rest) :=
      ih (fun u hu => h u (List.mem_cons_of_mem url hu))
    unfold findWorkingServer
    cases hpc : probeCandidate probe url with
    | ok o =>
      cases o with
      | some u => exact absurd hpc (probeCandidate_of_unreachable probe url hr u)
      | none => simp [hrest]
    | error e => simp [hrest]

/-- A probe for which the first candidate is unreachable and every other
candidate answers `200` with a decodable body. -/
def demoProbe (url : String) : PingOutcome :=
  if url = "http://a" then PingOutcome.fetchThrow JsError.nonError
  else PingOutcome.gotResponse 200 none

/-- C2 witness: among `["http://a", "http://b", "http://c"]` where `b` and
`c` are both reachable and `a` is not, the resolver picks `b` and never
probes `c`. -/
theorem findWorkingServer_first_reachable_witness :
    (∃ u ∈ ["http://a", "http://b", "http://c"],
        reachable demoProbe u = true) ∧
      (∃ pre w post,
        ["http://a", "http://b", "http://c"] = pre ++ w :: post ∧
        (∀ u ∈ pre, reachable demoProbe u = false) ∧
        reachable demoProbe w = true ∧
        findWorkingServer demoProbe ["http://a", "http://b", "http://c"] =
          (some w, pre ++ [w])) :=
  ⟨⟨"http://b", by decide⟩,
    findWorkingServer_first_reachable demoProbe
      ["http://a", "http://b", "http://c"] ⟨"http://b", by decide⟩⟩

/-- A probe where every candidate fails: `a` by transport error, `b` by a
non-success status, `c` by a JSON-decode failure on a 200 response. -/
def demoFailProbe (url : String) : PingOutcome :=
  if url = "http://a" then
    PingOutcome.fetchThrow (JsError.errorInst "Network request failed")
  else if url = "http://b" then PingOutcome.gotResponse 500 none
  else PingOutcome.gotResponse 200 (some (JsError.errorInst "JSON Parse error"))

/-- C7 witness: three candidates failing in three different ways all get
probed and the resolver reports absence. -/
theorem findWorkingServer_exhausts_witness :
    (∀ u ∈ ["http://a", "http://b", "http://c"],
        reachable demoFailProbe u = false) ∧
      findWorkingServer demoFailProbe ["http://a", "http://b", "http://c"] =
        (none, ["http://a", "http://b", "http://c"]) :=
  ⟨by decide,
    findWorkingServer_exhausts demoFailProbe
      ["http://a", "http://b", "http://c"] (by decide)⟩

/-! ## Properties of the set-based deduplication -/

theorem jsSetDedupAux_mem (l : List String) :
    ∀ (seen : List String) (a : String),
      a ∈ jsSetDedupAux seen l ↔ a ∈ l ∧ a ∉ seen := by
  induction l with
  | nil => intro seen a; simp [jsSetDedupAux]
  | cons x xs ih =>
    intro seen a
    simp only [jsSetDedupAux]
    by_cases hx : x ∈ seen
    · rw [if_pos hx, ih]
      simp only [List.mem_cons]
      constructor
      · tauto
      · rintro ⟨h1 | h1, h2⟩
        · subst h1; exact absurd hx h2
        · exact ⟨h1, h2⟩
    · rw [if_neg hx]
      simp only [List.mem_cons, ih, List.mem_cons]
      by_cases hax : a = x
      · subst hax; tauto
      · tauto

theorem jsSetDedupAux_nodup (l : List String) :
    ∀ seen : List String, (jsSetDedupAux seen l).Nodup := by
  induction l with
  | nil => intro seen; simp [jsSetDedupAux]
  | cons x xs ih =>
    intro seen
    simp only [jsSetDedupAux]
    by_cases hx : x ∈ seen
    · rw [if_pos hx]; exact ih seen
    · rw [if_neg hx]
      refine List.Nodup.cons (fun hmem => ?_) (ih (x :: seen))
      exact ((jsSetDedupAux_mem xs (x :: seen) x).mp hmem).2
        (List.mem_cons_self x seen)

theorem jsSetDedupAux_sublist (l : List String) :
    ∀ seen : List String, List.Sublist (jsSetDedupAux seen l) l := by
  induction l with
  | nil => intro seen; simp [jsSetDedupAux]
  | cons x xs ih =>
    intro seen
    simp only [jsSetDedupAux]
    by_cases hx : x ∈ seen
    · rw [if_pos hx]; exact List.Sublist.cons x (ih seen)
    · rw [if_neg hx]; exact List.Sublist.cons₂ x (ih (x :: seen))

theorem jsSetDedupAux_pairwise (l : List String) :
    ∀ seen : List String,
      (jsSetDedupAux seen l).Pairwise
        (fun a b => l.indexOf a < l.indexOf b) := by
  induction l with
  | nil => intro seen; simp [jsSetDedupAux]
  | cons x xs ih =>
    intro seen
    simp only [jsSetDedupAux]
    by_cases hx : x ∈ seen
    · rw [if_pos hx]
      refine List.Pairwise.imp_of_mem ?_ (ih seen)
      intro a b ha hb hr
      have ha' := (jsSetDedupAux_mem xs seen a).mp ha
      have hb' := (jsSetDedupAux_mem xs seen b).mp hb
      have hxa : x ≠ a := fun h => ha'.2 (h ▸ hx)
      have hxb : x ≠ b := fun h => hb'.2 (h ▸ hx)
      rw [List.indexOf_cons_ne _ hxa, List.indexOf_cons_ne _ hxb]
      exact Nat.succ_lt_succ hr
    · rw [if_neg hx]
      refine List.pairwise_cons.mpr ⟨?_, ?_⟩
      · intro b hb
        have hb' := (jsSetDedupAux_mem xs (x :: seen) b).mp hb
        have hxb : x ≠ b := fun h => hb'.2 (h ▸ List.mem_cons_self x seen)
        rw [List.indexOf_cons_self, List.indexOf_cons_ne _ hxb]
        exact Nat.succ_pos _
      · refine List.Pairwise.imp_of_mem ?_ (ih (x :: seen))
        intro a b ha hb hr
        have ha' := (jsSetDedupAux_mem xs (x :: seen) a).mp ha
        have hb' := (jsSetDedupAux_mem xs (x :: seen) b).mp hb
        have hxa : x ≠ a := fun h => ha'.2 (h ▸ List.mem_cons_self x seen)
        have hxb : x ≠ b := fun h => hb'.2 (h ▸ List.mem_cons_self x seen)
        rw [List.indexOf_cons_ne _ hxa, List.indexOf_cons_ne _ hxb]
        exact Nat.succ_lt_succ hr

theorem jsSetDedup_mem (l : List String) (a : String) :
    a ∈ jsSetDedup l ↔ a ∈ l := by
  rw [jsSetDedup, jsSetDedupAux_mem]
  simp

/-- C8 counterexample: on a non-Android platform with all three environment
variables set to distinct URLs, the emulator URL does not appear in the
candidate list at all — the list is built from only two of the three
sources. -/
theorem getServerUrls_cex :
    getServerUrls false (some "http://e") (some "http://l") (some "http://d") =
        ["http://l", "http://d"] ∧
      "http://e" ∉
        getServerUrls false (some "http://e") (some "http://l") (some "http://d") := by
  constructor
  · rfl
  · decide

/-- C8 (amended): on Android the candidate list is built from three sources
in priority order (emulator, local-development, physical-device); on every
other platform the emulator source is skipped and only the latter two
contribute. Each source falls back to its documented default when its
environment variable is unset (or empty). The result is the raw priority
list deduplicated preserving first-seen order (a sublist of the raw list,
ordered by first occurrence), contains no duplicates, and is non-empty. -/
theorem getServerUrls_spec (osIsAndroid : Bool)
    (apiUrlEmulator apiUrlLocal apiUrlDevice : Option String) :
    getServerUrls osIsAndroid apiUrlEmulator apiUrlLocal apiUrlDevice ≠ [] ∧
    (getServerUrls osIsAndroid apiUrlEmulator apiUrlLocal apiUrlDevice).Nodup ∧
    List.Sublist (getServerUrls osIsAndroid apiUrlEmulator apiUrlLocal apiUrlDevice)
      (rawServerUrls osIsAndroid apiUrlEmulator apiUrlLocal apiUrlDevice) ∧
    (∀ u, u ∈ getServerUrls osIsAndroid apiUrlEmulator apiUrlLocal apiUrlDevice ↔
      ((osIsAndroid = true ∧ u = jsOrDefault apiUrlEmulator "http://10.0.2.2:8000") ∨
        u = jsOrDefault apiUrlLocal "http://localhost:8000" ∨
        u = jsOrDefault apiUrlDevice "http://127.0.0.1:8000")) ∧
    (getServerUrls osIsAndroid apiUrlEmulator apiUrlLocal apiUrlDevice).Pairwise
      (fun a b =>
        (rawServerUrls osIsAndroid apiUrlEmulator apiUrlLocal apiUrlDevice).indexOf a <
          (rawServerUrls osIsAndroid apiUrlEmulator apiUrlLocal apiUrlDevice).indexOf b) := by
  refine ⟨?_, jsSetDedupAux_nodup _ [], jsSetDedupAux_sublist _ [], ?_, ?_⟩
  · intro hempty
    have hmem : jsOrDefault apiUrlLocal "http://localhost:8000" ∈
        getServerUrls osIsAndroid apiUrlEmulator apiUrlLocal apiUrlDevice := by
      rw [getServerUrls, jsSetDedup_mem, rawServerUrls]
      cases osIsAndroid <;> simp
    rw [hempty] at hmem
    exact List.not_mem_nil _ hmem
  · intro u
    rw [getServerUrls, jsSetDedup_mem, rawServerUrls]
    cases osIsAndroid <;> simp
  · exact jsSetDedupAux_pairwise _ []

end RNFastAPI

namespace RNFastAPI

/-! ## Form body encoding: URLSearchParams (login.tsx lines 117-122) -/

/-- Uppercase hexadecimal digit for a value below 16. -/
def hexDigitChar (n : Nat) : Char :=
  if n < 10 then Char.ofNat (48 + n) else Char.ofNat (55 + n)

/-- Percent-encode one byte as `%XX`. -/
def percentEncodeByte (b : UInt8) : List Char :=
  ['%', hexDigitChar (b.toNat / 16), hexDigitChar (b.toNat % 16)]

/-- Characters serialized verbatim by `URLSearchParams.toString()`
(the `application/x-www-form-urlencoded` unreserved set). -/
def formUnreserved (c : Char) : Bool :=
  c.isAlphanum || c = '*' || c = '-' || c = '.' || c = '_'

/-- Serialize one character: unreserved characters pass through, a space
becomes `+`, everything else is the percent-encoding of its UTF-8 bytes. -/
def encodeFormChar (c : Char) : List Char :=
  if formUnreserved c then [c]
  else if c = ' ' then ['+']
  else (((String.singleton c).toUTF8.data.toList).map percentEncodeByte).flatten

/-- Serialize one form value, character by character. -/
def encodeFormComponent (s : String) : String :=
  ⟨(s.data.map encodeFormChar).flatten⟩

/-- `formData.toString()` after appending `username` and `password`:
`username=<enc u>&password=<enc p>`. -/
def formBody (username password : String) : String :=
  "username=" ++ encodeFormComponent username ++
    "&password=" ++ encodeFormComponent password

theorem encodeFormComponent_of_unreserved (s : String)
    (h : ∀ c ∈ s.data, formUnreserved c = true) :
    encodeFormComponent s = s := by
  have hlist : ∀ l : List Char, (∀ c ∈ l, formUnreserved c = true) →
      (l.map encodeFormChar).flatten = l := by
    intro l
    induction l with
    | nil => intro _; rfl
    | cons c cs ih =>
      intro hl
      have hc : formUnreserved c = true := hl c (List.mem_cons_self c cs)
      have hcs := ih (fun d hd => hl d (List.mem_cons_of_mem c hd))
      simp only [List.map_cons, List.flatten_cons, encodeFormChar, hc, if_true,
        List.singleton_append, hcs]
  rw [encodeFormComponent, hlist s.data h]

/-! ## Login orchestration: handleLogin (login.tsx lines 99-157) -/

/-- The decoded JSON body of the token response, with the two fields the
orchestration reads; `none` models an absent field. -/
structure TokenData where
  detail : Option String
  access_token : Option String
deriving DecidableEq

/-- Result of `response.json()` on the token response. -/
inductive TokenBody
  | jsonThrow (e : JsError)
  | jsonOk (data : TokenData)
deriving DecidableEq

/-- Outcome of the single `POST {url}/token` exchange: `fetch` rejects, or a
response with some status arrives and its body decodes or not. -/
inductive TokenFetchResult
  | fetchThrow (e : JsError)
  | gotResponse (status : Nat) (body : TokenBody)
deriving DecidableEq

/-- Observable side effects of `handleLogin`, in program order. -/
inductive Event
  | consoleLog (msg : String)
  | consoleError (msg : String)
  | httpPost (url : String) (body : String)
deriving DecidableEq

/-- Everything `handleLogin` does: the session state it leaves behind, the
alert raised (title, message) if any, the screen navigated to if any, and
the ordered trace of console output and network requests. -/
structure LoginOutcome where
  state : AuthState
  alert : Option (String × String)
  navigatedTo : Option String
  trace : List Event
deriving DecidableEq

/-- `error instanceof Error ? error.message : 'Something went wrong'`. -/
def errMessage (e : JsError) : String :=
  match e with
  | .errorInst m => m
  | .nonError => "Something went wrong"

/-- The `handleLogin` handler. Parameters: the two text-input values, the
`workingServerUrl` component state, the outcome of the one `fetch` to
`/token` (relevant only when a request is issued), and the auth-store state
before the call. The `isLoading` flag and the exact extra arguments passed
to `console.log`/`console.error` (objects printed after the format string)
are elided; each logging call is modelled by its leading string. -/
def handleLogin (username password : String)
    (workingServerUrl : Option String) (r : TokenFetchResult)
    (s : AuthState) : LoginOutcome :=
  if username = "" ∨ password = "" then
    { state := s,
      alert := some ("Error", "Please enter both username and password"),
      navigatedTo := none, trace := [] }
  else
    match workingServerUrl with
    | none =>
      { state := s,
        alert := some ("Server Connection Error",
          "Cannot connect to the server. Please check your network connection and try again."),
        navigatedTo := none, trace := [] }
    | some url =>
      let body := formBody username password
      let pre : List Event :=
        [Event.consoleLog ("Attempting to login at: " ++ url ++ "/token"),
         Event.consoleLog ("Form data being sent: " ++ body),
         Event.httpPost (url ++ "/token") body]
      match r with
      | .fetchThrow e =>
        { state := s, alert := some ("Login Failed", errMessage e),
          navigatedTo := none,
          trace := pre ++ [Event.consoleError "Login error:"] }
      | .gotResponse status tokenBody =>
        let statusLog := Event.consoleLog ("Response status: " ++ toString status)
        match tokenBody with
        | .jsonThrow e =>
          { state := s, alert := some ("Login Failed", errMessage e),
            navigatedTo := none,
            trace := pre ++ [statusLog, Event.consoleError "Login error:"] }
        | .jsonOk data =>
          let dataLog := Event.consoleLog "Response data:"
          if statusOk status then
            { state := storeLogin data.access_token s, alert := none,
              navigatedTo := some "Overview",
              trace := pre ++ [statusLog, dataLog,
                Event.consoleLog "Login successful:"] }
          else
            { state := s,
              alert := some ("Login Failed", jsOrDefault data.detail "Login failed"),
              navigatedTo := none,
              trace := pre ++ [statusLog, dataLog,
                Event.consoleError "Login error:"] }

/-- A fetch outcome counts as a failed login attempt when `fetch` rejected,
the body could not be decoded, or the status denotes failure. -/
def loginFailure : TokenFetchResult → Bool
  | .fetchThrow _ => true
  | .gotResponse _ (.jsonThrow _) => true
  | .gotResponse status (.jsonOk _) => !(statusOk status)

/-- C3: on every failed login attempt — `fetch` rejection (no response at
all), undecodable body, or failure status — `handleLogin` leaves the
session state completely untouched, does not navigate, and surfaces a
"Login Failed" alert with a human-readable message; when a response with a
failure status decodes, the message is the server-supplied `detail` string
when present and non-empty, otherwise the generic "Login failed". -/
theorem handleLogin_failure (username password url : String)
    (s : AuthState) (r : TokenFetchResult)
    (hu : username ≠ "") (hp : password ≠ "") (hr : loginFailure r = true) :
    (handleLogin username password (some url) r s).state = s ∧
    (handleLogin username password (some url) r s).navigatedTo = none ∧
    ∃ msg, (handleLogin username password (some url) r s).alert =
        some ("Login Failed", msg) ∧
      ∀ status data,
        r = TokenFetchResult.gotResponse status (TokenBody.jsonOk data) →
          msg = jsOrDefault data.detail "Login failed" := by
  have hcond : ¬(username = "" ∨ password = "") := by
    rintro (h | h)
    · exact hu h
    · exact hp h
  cases r with
  | fetchThrow e =>
    refine ⟨?_, ?_, errMessage e, ?_, ?_⟩ <;> simp [handleLogin, hcond]
  | gotResponse status tokenBody =>
    cases tokenBody with
    | jsonThrow e =>
      refine ⟨?_, ?_, errMessage e, ?_, ?_⟩ <;> simp [handleLogin, hcond]
    | jsonOk data =>
      have hst : statusOk status = false := by
        simpa [loginFailure] using hr
      refine ⟨?_, ?_, jsOrDefault data.detail "Login failed", ?_, ?_⟩
      · simp [handleLogin, hcond, hst]
      · simp [handleLogin, hcond, hst]
      · simp [handleLogin, hcond, hst]
      · intro status' data' heq
        obtain ⟨h1, h2⟩ := TokenFetchResult.gotResponse.inj heq
        rw [TokenBody.jsonOk.inj h2]

/-- C3 witness: the spec's concrete failed attempt — valid credentials, a
resolved endpoint, and a `401` response whose body is
`{"detail": "Incorrect username or password"}` — leaves the initial
session state untouched and surfaces the detail string. -/
theorem handleLogin_failure_witness :
    (("johndoe" : String) ≠ "" ∧ ("password123" : String) ≠ "" ∧
        loginFailure (TokenFetchResult.gotResponse 401
          (TokenBody.jsonOk ⟨some "Incorrect username or password", none⟩)) =
          true) ∧
      ((handleLogin "johndoe" "password123" (some "http://host:8000")
          (TokenFetchResult.gotResponse 401
            (TokenBody.jsonOk ⟨some "Incorrect username or password", none⟩))
          initialAuthState).state = initialAuthState ∧
        (handleLogin "johndoe" "password123" (some "http://host:8000")
          (TokenFetchResult.gotResponse 401
            (TokenBody.jsonOk ⟨some "Incorrect username or password", none⟩))
          initialAuthState).navigatedTo = none ∧
        ∃ msg,
          (handleLogin "johndoe" "password123" (some "http://host:8000")
            (TokenFetchResult.gotResponse 401
              (TokenBody.jsonOk ⟨some "Incorrect username or password", none⟩))
            initialAuthState).alert = some ("Login Failed", msg) ∧
          ∀ status data,
            TokenFetchResult.gotResponse 401
                (TokenBody.jsonOk ⟨some "Incorrect username or password", none⟩) =
              TokenFetchResult.gotResponse status (TokenBody.jsonOk data) →
              msg = jsOrDefault data.detail "Login failed") :=
  ⟨⟨by decide, by decide, by decide⟩,
    handleLogin_failure "johndoe" "password123" "http://host:8000"
      initialAuthState
      (TokenFetchResult.gotResponse 401
        (TokenBody.jsonOk ⟨some "Incorrect username or password", none⟩))
      (by decide) (by decide) (by decide)⟩

/-- C4: when the username is empty, the password is empty, or no endpoint
has been resolved, `handleLogin` issues no network request (its trace is
empty), leaves the session state unchanged, does not navigate, and always
raises an alert rather than silently returning: empty credentials produce
the "Error" alert, and an unresolved endpoint (with non-empty credentials)
produces the "Server Connection Error" alert. -/
theorem handleLogin_preconditions (username password : String)
    (w : Option String) (r : TokenFetchResult) (s : AuthState)
    (h : username = "" ∨ password = "" ∨ w = none) :
    (handleLogin username password w r s).trace = [] ∧
    (handleLogin username password w r s).state = s ∧
    (handleLogin username password w r s).navigatedTo = none ∧
    (handleLogin username password w r s).alert.isSome = true ∧
    ((username = "" ∨ password = "") →
      (handleLogin username password w r s).alert =
        some ("Error", "Please enter both username and password")) ∧
    (username ≠ "" → password ≠ "" →
      (handleLogin username password w r s).alert =
        some ("Server Connection Error",
          "Cannot connect to the server. Please check your network connection and try again.")) := by
  by_cases hup : username = "" ∨ password = ""
  · refine ⟨?_, ?_, ?_, ?_, ?_, ?_⟩
    · simp [handleLogin, hup]
    · simp [handleLogin, hup]
    · simp [handleLogin, hup]
    · simp [handleLogin, hup]
    · intro _; simp [handleLogin, hup]
    · intro h1 h2
      rcases hup with hx | hx
      · exact absurd hx h1
      · exact absurd hx h2
  · have hw : w = none := by
      rcases h with hx | hx | hx
      · exact absurd (Or.inl hx) hup
      · exact absurd (Or.inr hx) hup
      · exact hx
    subst hw
    refine ⟨?_, ?_, ?_, ?_, ?_, ?_⟩
    · simp [handleLogin, hup]
    · simp [handleLogin, hup]
    · simp [handleLogin, hup]
    · simp [handleLogin, hup]
    · intro hx; exact absurd hx hup
    · intro _ _; simp [handleLogin, hup]

/-- C4 witness: an empty username (with everything else in place) yields an
empty trace, an unchanged state, and the credentials alert. -/
theorem handleLogin_preconditions_witness :
    (("" : String) = "" ∨ ("password123" : String) = "" ∨
        (some "http://host:8000" : Option String) = none) ∧
      ((handleLogin "" "password123" (some "http://host:8000")
          (TokenFetchResult.fetchThrow JsError.nonError)
          initialAuthState).trace = [] ∧
        (handleLogin "" "password123" (some "http://host:8000")
          (TokenFetchResult.fetchThrow JsError.nonError)
          initialAuthState).state = initialAuthState ∧
        (handleLogin "" "password123" (some "http://host:8000")
          (TokenFetchResult.fetchThrow JsError.nonError)
          initialAuthState).navigatedTo = none ∧
        (handleLogin "" "password123" (some "http://host:8000")
          (TokenFetchResult.fetchThrow JsError.nonError)
          initialAuthState).alert.isSome = true ∧
        ((("" : String) = "" ∨ ("password123" : String) = "") →
          (handleLogin "" "password123" (some "http://host:8000")
            (TokenFetchResult.fetchThrow JsError.nonError)
            initialAuthState).alert =
            some ("Error", "Please enter both username and password")) ∧
        (("" : String) ≠ "" → ("password123" : String) ≠ "" →
          (handleLogin "" "password123" (some "http://host:8000")
            (TokenFetchResult.fetchThrow JsError.nonError)
            initialAuthState).alert =
            some ("Server Connection Error",
              "Cannot connect to the server. Please check your network connection and try again."))) :=
  ⟨Or.inl rfl,
    handleLogin_preconditions "" "password123" (some "http://host:8000")
      (TokenFetchResult.fetchThrow JsError.nonError) initialAuthState
      (Or.inl rfl)⟩

/-- C9: with non-empty credentials (of unreserved characters, so that the
URL encoding is the identity) and a resolved endpoint, `handleLogin` logs
the URL-encoded form body — containing the username and the password in
cleartext — to the console strictly before issuing the POST request, for
every possible request outcome. -/
theorem handleLogin_logs_credentials (username password url : String)
    (r : TokenFetchResult) (s : AuthState)
    (hu : username ≠ "") (hp : password ≠ "")
    (hcu : ∀ c ∈ username.data, formUnreserved c = true)
    (hcp : ∀ c ∈ password.data, formUnreserved c = true) :
    (handleLogin username password (some url) r s).trace.take 3 =
      [Event.consoleLog ("Attempting to login at: " ++ url ++ "/token"),
       Event.consoleLog ("Form data being sent: " ++
         ("username=" ++ username ++ "&password=" ++ password)),
       Event.httpPost (url ++ "/token")
         ("username=" ++ username ++ "&password=" ++ password)] := by
  have hcond : ¬(username = "" ∨ password = "") := by
    rintro (h | h)
    · exact hu h
    · exact hp h
  have hbody : formBody username password =
      "username=" ++ username ++ "&password=" ++ password := by
    rw [formBody, encodeFormComponent_of_unreserved username hcu,
      encodeFormComponent_of_unreserved password hcp]
  cases r with
  | fetchThrow e => simp [handleLogin, hcond, hbody]
  | gotResponse status tokenBody =>
    cases tokenBody with
    | jsonThrow e => simp [handleLogin, hcond, hbody]
    | jsonOk data =>
      by_cases hst : statusOk status <;>
        simp [handleLogin, hcond, hbody, hst]

/-- C9 witness: the credentials `johndoe` / `password123` appear verbatim
in the logged form body, before the request event. -/
theorem handleLogin_logs_credentials_witness :
    (("johndoe" : String) ≠ "" ∧ ("password123" : String) ≠ "") ∧
      (handleLogin "johndoe" "password123" (some "http://host:8000")
          (TokenFetchResult.gotResponse 200 (TokenBody.jsonOk ⟨none, some "abc123"⟩))
          initialAuthState).trace.take 3 =
        [Event.consoleLog ("Attempting to login at: " ++ "http://host:8000" ++ "/token"),
         Event.consoleLog ("Form data being sent: " ++
           ("username=" ++ "johndoe" ++ "&password=" ++ "password123")),
         Event.httpPost ("http://host:8000" ++ "/token")
           ("username=" ++ "johndoe" ++ "&password=" ++ "password123")] :=
  ⟨⟨by decide, by decide⟩,
    handleLogin_logs_credentials "johndoe" "password123" "http://host:8000"
      (TokenFetchResult.gotResponse 200 (TokenBody.jsonOk ⟨none, some "abc123"⟩))
      initialAuthState (by decide) (by decide) (by decide) (by decide)⟩

/-- C10: a success-status response whose decoded body has no `access_token`
field surfaces no error: the store's `login` is invoked with the absent
value, leaving the session authenticated with no usable token, and
navigation to the authenticated view is signalled. -/
theorem handleLogin_missing_token (username password url : String)
    (status : Nat) (detail : Option String) (s : AuthState)
    (hu : username ≠ "") (hp : password ≠ "") (hok : statusOk status = true) :
    (handleLogin username password (some url)
        (TokenFetchResult.gotResponse status (TokenBody.jsonOk ⟨detail, none⟩))
        s).alert = none ∧
    (handleLogin username password (some url)
        (TokenFetchResult.gotResponse status (TokenBody.jsonOk ⟨detail, none⟩))
        s).state = storeLogin none s ∧
    (handleLogin username password (some url)
        (TokenFetchResult.gotResponse status (TokenBody.jsonOk ⟨detail, none⟩))
        s).state.isAuthenticated = true ∧
    (handleLogin username password (some url)
        (TokenFetchResult.gotResponse status (TokenBody.jsonOk ⟨detail, none⟩))
        s).state.token = none ∧
    (handleLogin username password (some url)
        (TokenFetchResult.gotResponse status (TokenBody.jsonOk ⟨detail, none⟩))
        s).navigatedTo = some "Overview" := by
  have hcond : ¬(username = "" ∨ password = "") := by
    rintro (h | h)
    · exact hu h
    · exact hp h
  refine ⟨?_, ?_, ?_, ?_, ?_⟩ <;> simp [handleLogin, hcond, hok, storeLogin]

/-- C10 witness: a `200` response with body `{}` authenticates the session
with no token and navigates to the Overview screen without any alert. -/
theorem handleLogin_missing_token_witness :
    (("johndoe" : String) ≠ "" ∧ ("password123" : String) ≠ "" ∧
        statusOk 200 = true) ∧
      ((handleLogin "johndoe" "password123" (some "http://host:8000")
          (TokenFetchResult.gotResponse 200 (TokenBody.jsonOk ⟨none, none⟩))
          initialAuthState).alert = none ∧
        (handleLogin "johndoe" "password123" (some "http://host:8000")
          (TokenFetchResult.gotResponse 200 (TokenBody.jsonOk ⟨none, none⟩))
          initialAuthState).state = storeLogin none initialAuthState ∧
        (handleLogin "johndoe" "password123" (some "http://host:8000")
          (TokenFetchResult.gotResponse 200 (TokenBody.jsonOk ⟨none, none⟩))
          initialAuthState).state.isAuthenticated = true ∧
        (handleLogin "johndoe" "password123" (some "http://host:8000")
          (TokenFetchResult.gotResponse 200 (TokenBody.jsonOk ⟨none, none⟩))
          initialAuthState).state.token = none ∧
        (handleLogin "johndoe" "password123" (some "http://host:8000")
          (TokenFetchResult.gotResponse 200 (TokenBody.jsonOk ⟨none, none⟩))
          initialAuthState).navigatedTo = some "Overview") :=
  ⟨⟨by decide, by decide, by decide⟩,
    handleLogin_missing_token "johndoe" "password123" "http://host:8000"
      200 none initialAuthState (by decide) (by decide) (by decide)⟩

end RNFastAPI
